import Mathlib

/-!
Shallow embedding of the HD44780 16x2 alphanumeric LCD driver
(`Sources/4-bit Mode/Example/MDK-ARM/alcd.c` together with the constants of
`Sources/8-bit Mode/alcd.h`, whose `#define` blocks are shared verbatim
between the two variants).

The driver is write-only and open-loop: its only observable behaviour is the
sequence of GPIO writes and busy-wait delays it performs, plus the three
process-wide variables `__alcd_initStatus`, `__alcd_x_position`,
`__alcd_y_position`.  We model it at two levels:

* the transport level: `alcd_write` is transcribed into the explicit list of
  GPIO events (`Ev`) it performs — pin writes and delays — parameterised by
  the value of `__alcd_initStatus` it reads;
* the driver level: every public function becomes a state transformer
  `State → args → State × List TxEv`, where a `TxEv.tx b m` event stands for
  the call `alcd_write(b, m)` (`m = false` command, `m = true` data, matching
  `__alcd_writeCmd = 0` / `__alcd_writeData = 1`) and `TxEv.pause n` stands
  for a direct `__alcd_delay(n)` performed outside `alcd_write`.

`uint8_t` values are modelled as `Nat` reduced `% 256` exactly where the C
code stores into or receives a `uint8_t`.
-/

namespace ALCD

/-! ### Constants from alcd.h -/

def __alcd_writeCmd : Bool := false
def __alcd_writeData : Bool := true

def __alcd_max_x : Nat := 16
def __alcd_max_y : Nat := 2

def __alcd_delay_CMD : Nat := 50
def __alcd_delay_modeSet : Nat := 5000
def __alcd_delay_powerON : Nat := 50000

def __alcd_Mode_4bit_2line_5x8 : Nat := 0x28
def __alcd_Mode_4bit_Step1 : Nat := 0x33
def __alcd_Mode_4bit_Step2 : Nat := 0x32

def __alcd_Display_Clear : Nat := 0x01
def __alcd_Display_OFF : Nat := 0x08
def __alcd_Display_ON : Nat := 0x0C
def __alcd_Cursor_OFF : Nat := 0x0C
def __alcd_Entry_Inc : Nat := 0x06

def __alcd_Line1_Start : Nat := 0x80
def __alcd_Line2_Start : Nat := 0xC0
def __alcd_CGRAM_Start : Nat := 0x40

/-! ### Helper macros from aKaReZa.h (not in the repository sources) -/

/-- Modelled from the spec: the `bitCheck(reg, bit)` helper macro lives in
`aKaReZa.h`, which is not among the repository sources.  Per the spec the
transport "splits the byte into high nibble (bits 7–4) and low nibble
(bits 3–0)" and drives each data line with the corresponding bit, so
`bitCheck` reads bit `n` of a byte. -/
def bitCheck (x n : Nat) : Bool := x.testBit n

/-- Modelled from the spec: the `bitChange(reg, bit, value)` helper macro
lives in `aKaReZa.h`, which is not among the repository sources.  Per the
spec the display-mode controller "set[s] bit 0 = blink, bit 1 = cursor,
bit 2 = display, each independently", so `bitChange` sets bit `n` of an
8-bit register to `v`. -/
def bitChange (x n : Nat) (v : Bool) : Nat :=
  if v then x ||| (1 <<< n) else x &&& (255 ^^^ (1 <<< n))

/-! ### Global driver state -/

/-- The three process-wide variables of alcd.c. -/
structure State where
  __alcd_initStatus : Bool
  __alcd_x_position : Nat
  __alcd_y_position : Nat
deriving DecidableEq, Repr

/-- Program-start values: `false`, `0`, `0`. -/
def initialState : State := ⟨false, 0, 0⟩

/-! ### GPIO-level transport -/

/-- The GPIO lines touched by the 4-bit transport. -/
inductive Pin
  | RS | EN | DB4 | DB5 | DB6 | DB7
deriving DecidableEq, Repr

/-- A GPIO-level event: a `HAL_GPIO_WritePin` call or an `__alcd_delay`. -/
inductive Ev
  | setPin (p : Pin) (level : Bool)
  | delay (us : Nat)
deriving DecidableEq, Repr

/-- Transcription of `alcd_write` (alcd.c lines 238–280): set RS, drive the
high nibble on DB4–DB7, pulse EN around the status-dependent delay, then the
low nibble likewise.  `initStatus` is the value of `__alcd_initStatus` read
by the two `if` statements. -/
def alcd_write (initStatus : Bool) (_data : Nat) (_alcd_cmdData : Bool) : List Ev :=
  let d := _data % 256
  let dly := if initStatus = false then __alcd_delay_modeSet else __alcd_delay_CMD
  [ Ev.setPin Pin.RS _alcd_cmdData,
    Ev.setPin Pin.DB4 (bitCheck d 4),
    Ev.setPin Pin.DB5 (bitCheck d 5),
    Ev.setPin Pin.DB6 (bitCheck d 6),
    Ev.setPin Pin.DB7 (bitCheck d 7),
    Ev.setPin Pin.EN true,
    Ev.delay dly,
    Ev.setPin Pin.EN false,
    Ev.setPin Pin.DB4 (bitCheck d 0),
    Ev.setPin Pin.DB5 (bitCheck d 1),
    Ev.setPin Pin.DB6 (bitCheck d 2),
    Ev.setPin Pin.DB7 (bitCheck d 3),
    Ev.setPin Pin.EN true,
    Ev.delay dly,
    Ev.setPin Pin.EN false ]

/-! ### Driver-level operations -/

/-- A driver-level event: `tx b isData` is the call `alcd_write(b, isData)`;
`pause n` is a direct `__alcd_delay(n)` outside `alcd_write`. -/
inductive TxEv
  | tx (b : Nat) (isData : Bool)
  | pause (us : Nat)
deriving DecidableEq, Repr

/-- `alcd_gotoxy` (alcd.c lines 153–174): clamp an out-of-range position to
(0,0), otherwise store it, then transmit the DDRAM address computed from the
*stored* position as a command. -/
def alcd_gotoxy (s : State) (_alcd_x _alcd_y : Nat) : State × List TxEv :=
  let x := _alcd_x % 256
  let y := _alcd_y % 256
  let s' :=
    if x ≥ __alcd_max_x ∨ y ≥ __alcd_max_y then
      { s with __alcd_x_position := 0, __alcd_y_position := 0 }
    else
      { s with __alcd_x_position := x, __alcd_y_position := y }
  let _address :=
    (if s'.__alcd_y_position = 0 then __alcd_Line1_Start else __alcd_Line2_Start)
      + s'.__alcd_x_position
  (s', [TxEv.tx (_address % 256) __alcd_writeCmd])

/-- `alcd_clear` (alcd.c lines 132–138): clear command, zero both position
variables, then the long mode-set delay. -/
def alcd_clear (s : State) : State × List TxEv :=
  ({ s with __alcd_x_position := 0, __alcd_y_position := 0 },
   [TxEv.tx (__alcd_Display_Clear % 256) __alcd_writeCmd,
    TxEv.pause __alcd_delay_modeSet])

/-- `alcd_putc` (alcd.c lines 206–218): transmit the character as data,
increment the column (`uint8_t`), and on reaching `__alcd_max_x` wrap: column
to 0, row incremented, then `alcd_gotoxy` with the new position. -/
def alcd_putc (s : State) (_char : Nat) : State × List TxEv :=
  let x' := (s.__alcd_x_position + 1) % 256
  if x' ≥ __alcd_max_x then
    let s1 : State :=
      { s with __alcd_x_position := 0,
               __alcd_y_position := (s.__alcd_y_position + 1) % 256 }
    let r := alcd_gotoxy s1 s1.__alcd_x_position s1.__alcd_y_position
    (r.1, TxEv.tx (_char % 256) __alcd_writeData :: r.2)
  else
    ({ s with __alcd_x_position := x' },
     [TxEv.tx (_char % 256) __alcd_writeData])

/-- `alcd_puts` (alcd.c lines 189–196): call `alcd_putc` on each byte until
the null terminator.  The C string is modelled as the list of bytes in
memory; the loop stops at the first zero byte (or at the end of the list). -/
def alcd_puts : State → List Nat → State × List TxEv
  | s, [] => (s, [])
  | s, c :: rest =>
      if c % 256 = 0 then (s, [])
      else
        let r1 := alcd_putc s c
        let r2 := alcd_puts r1.1 rest
        (r2.1, r1.2 ++ r2.2)

/-- The `for` loop of `alcd_customChar`: at each of the 8 iterations, write
the current CGRAM address (`_CG_Add++`, a `uint8_t`) as command, then the
next pattern byte (`*_alcd_CGRAMdata++`) as data. -/
def __alcd_CG_write_loop : Nat → Nat → List Nat → List TxEv
  | _, 0, _ => []
  | a, k + 1, pat =>
      TxEv.tx (a % 256) __alcd_writeCmd
        :: TxEv.tx (pat.headD 0 % 256) __alcd_writeData
        :: __alcd_CG_write_loop (a + 1) k pat.tail

/-- `alcd_customChar` (alcd.c lines 62–77): compute the CGRAM base address,
run the 8-step write loop, then restore the cursor with `alcd_gotoxy` on the
stored position. -/
def alcd_customChar (s : State) (_alcd_CGRAMadd : Nat) (_alcd_CGRAMdata : List Nat) :
    State × List TxEv :=
  let _CG_Add := (__alcd_CGRAM_Start + ((_alcd_CGRAMadd % 256) <<< 3)) % 256
  let loopEvs := __alcd_CG_write_loop _CG_Add 8 _alcd_CGRAMdata
  let r := alcd_gotoxy s s.__alcd_x_position s.__alcd_y_position
  (r.1, loopEvs ++ r.2)

/-- `alcd_display` (alcd.c lines 112–122): start from `__alcd_Display_OFF`
(0x08), set bit 0 to blink, bit 1 to cursor, bit 2 to display, transmit as a
command.  The state is untouched. -/
def alcd_display (s : State) (_alcd_Display _alcd_Cursor _alcd_Blink : Bool) :
    State × List TxEv :=
  let c0 := __alcd_Display_OFF
  let c1 := bitChange c0 0 _alcd_Blink
  let c2 := bitChange c1 1 _alcd_Cursor
  let c3 := bitChange c2 2 _alcd_Display
  (s, [TxEv.tx (c3 % 256) __alcd_writeCmd])

/-- `alcd_init` (alcd.c lines 302–335): set `__alcd_initStatus := false`,
wait the power-on delay, then send the seven fixed command bytes, each
followed by the mode-set delay, and finally set `__alcd_initStatus := true`.
The position variables are never written.  (The optional backlight pin write
is compiled out: `__alcd_BL_GPIO_Port` is not defined by the sources.) -/
def alcd_init (s : State) : State × List TxEv :=
  let s0 : State := { s with __alcd_initStatus := false }
  let evs : List TxEv :=
    [ TxEv.pause __alcd_delay_powerON,
      TxEv.tx (__alcd_Mode_4bit_Step1 % 256) __alcd_writeCmd,
      TxEv.pause __alcd_delay_modeSet,
      TxEv.tx (__alcd_Mode_4bit_Step2 % 256) __alcd_writeCmd,
      TxEv.pause __alcd_delay_modeSet,
      TxEv.tx (__alcd_Mode_4bit_2line_5x8 % 256) __alcd_writeCmd,
      TxEv.pause __alcd_delay_modeSet,
      TxEv.tx (__alcd_Display_ON % 256) __alcd_writeCmd,
      TxEv.pause __alcd_delay_modeSet,
      TxEv.tx (__alcd_Cursor_OFF % 256) __alcd_writeCmd,
      TxEv.pause __alcd_delay_modeSet,
      TxEv.tx (__alcd_Entry_Inc % 256) __alcd_writeCmd,
      TxEv.pause __alcd_delay_modeSet,
      TxEv.tx (__alcd_Display_Clear % 256) __alcd_writeCmd,
      TxEv.pause __alcd_delay_modeSet ]
  ({ s0 with __alcd_initStatus := true }, evs)

/-! ### Sequences of public driver calls -/

/-- One public driver call. -/
inductive Call
  | init
  | gotoxy (x y : Nat)
  | clear
  | putc (c : Nat)
  | puts (cs : List Nat)
  | customChar (a : Nat) (p : List Nat)
  | display (d c b : Bool)
deriving DecidableEq, Repr

/-- Dispatch one public call. -/
def step (s : State) : Call → State × List TxEv
  | Call.init => alcd_init s
  | Call.gotoxy x y => alcd_gotoxy s x y
  | Call.clear => alcd_clear s
  | Call.putc c => alcd_putc s c
  | Call.puts cs => alcd_puts s cs
  | Call.customChar a p => alcd_customChar s a p
  | Call.display d c b => alcd_display s d c b

/-- Run a sequence of public calls, accumulating the driver-level trace. -/
def run : State → List Call → State × List TxEv
  | s, [] => (s, [])
  | s, c :: cs =>
      let r1 := step s c
      let r2 := run r1.1 cs
      (r2.1, r1.2 ++ r2.2)

/-- The cursor-bounds invariant of the spec's data-model section. -/
def posInv (s : State) : Prop :=
  s.__alcd_x_position < 16 ∧ s.__alcd_y_position < 2

instance (s : State) : Decidable (posInv s) := by
  unfold posInv; infer_instance

/-- Recognise transport calls in a driver-level trace. -/
def isTx : TxEv → Bool
  | TxEv.tx _ _ => true
  | TxEv.pause _ => false

end ALCD

namespace ALCD

/-! ### Invariant lemmas -/

lemma posInv_gotoxy (s : State) (x y : Nat) : posInv (alcd_gotoxy s x y).1 := by
  by_cases h : x % 256 ≥ __alcd_max_x ∨ y % 256 ≥ __alcd_max_y
  · simp [alcd_gotoxy, h, posInv]
  · simp [alcd_gotoxy, h, posInv]
    push_neg at h
    simp [__alcd_max_x, __alcd_max_y] at h
    omega

lemma posInv_putc (s : State) (c : Nat) (h : posInv s) : posInv (alcd_putc s c).1 := by
  unfold alcd_putc
  by_cases hx : (s.__alcd_x_position + 1) % 256 ≥ __alcd_max_x
  · simp only [hx, if_true]
    exact posInv_gotoxy _ _ _
  · simp only [hx, if_false]
    refine ⟨?_, h.2⟩
    simp [__alcd_max_x] at hx
    exact hx

lemma posInv_puts (cs : List Nat) : ∀ s : State, posInv s → posInv (alcd_puts s cs).1 := by
  induction cs with
  | nil => intro s h; exact h
  | cons c rest ih =>
      intro s h
      unfold alcd_puts
      by_cases hc : c % 256 = 0
      · simp only [hc, if_true]; exact h
      · simp only [hc, if_false]
        exact ih _ (posInv_putc s c h)

lemma posInv_customChar (s : State) (a : Nat) (p : List Nat) :
    posInv (alcd_customChar s a p).1 :=
  posInv_gotoxy s s.__alcd_x_position s.__alcd_y_position

lemma posInv_clear (s : State) : posInv (alcd_clear s).1 := by
  simp [alcd_clear, posInv]

lemma posInv_init (s : State) (h : posInv s) : posInv (alcd_init s).1 := h

lemma posInv_display (s : State) (d c b : Bool) (h : posInv s) :
    posInv (alcd_display s d c b).1 := h

lemma posInv_step (s : State) (c : Call) (h : posInv s) : posInv (step s c).1 := by
  cases c with
  | init => exact posInv_init s h
  | gotoxy x y => exact posInv_gotoxy s x y
  | clear => exact posInv_clear s
  | putc ch => exact posInv_putc s ch h
  | puts cs => exact posInv_puts cs s h
  | customChar a p => exact posInv_customChar s a p
  | display d cu b => exact posInv_display s d cu b h

lemma posInv_run (cs : List Call) : ∀ s : State, posInv s → posInv (run s cs).1 := by
  induction cs with
  | nil => intro s h; exact h
  | cons c rest ih =>
      intro s h
      exact ih _ (posInv_step s c h)

/-- C1: starting from the initial state (`cursorColumn = 0`, `cursorRow = 0`),
after any sequence of public driver calls (`alcd_init`, `alcd_gotoxy`,
`alcd_clear`, `alcd_putc`, `alcd_puts`, `alcd_customChar`, `alcd_display`)
the stored cursor position satisfies `cursorColumn < 16 ∧ cursorRow < 2`. -/
theorem run_cursor_invariant (cs : List Call) :
    (run initialState cs).1.__alcd_x_position < 16 ∧
    (run initialState cs).1.__alcd_y_position < 2 :=
  posInv_run cs initialState (by simp [initialState, posInv])

end ALCD

namespace ALCD

/-- C2: for in-range `(col, row)` (`col < 16`, `row < 2`), `alcd_gotoxy`
stores `(col, row)` and transmits the command byte
`(row = 0 ? 0x80 : 0xC0) + col`; for out-of-range requests (within the
`uint8_t` argument range) it stores `(0, 0)` and transmits the command byte
computed from the clamped position, namely `0x80`. -/
theorem alcd_gotoxy_spec (s : State) (col row : Nat) (hc : col < 256) (hr : row < 256) :
    (col < 16 ∧ row < 2 →
      (alcd_gotoxy s col row).1 =
        { s with __alcd_x_position := col, __alcd_y_position := row } ∧
      (alcd_gotoxy s col row).2 =
        [TxEv.tx ((if row = 0 then 0x80 else 0xC0) + col) __alcd_writeCmd]) ∧
    (16 ≤ col ∨ 2 ≤ row →
      (alcd_gotoxy s col row).1 =
        { s with __alcd_x_position := 0, __alcd_y_position := 0 } ∧
      (alcd_gotoxy s col row).2 = [TxEv.tx 0x80 __alcd_writeCmd]) := by
  have hcol : col % 256 = col := Nat.mod_eq_of_lt hc
  have hrow : row % 256 = row := Nat.mod_eq_of_lt hr
  constructor
  · rintro ⟨h1, h2⟩
    have hno : ¬(col ≥ 16 ∨ row ≥ 2) := by omega
    simp only [alcd_gotoxy, __alcd_max_x, __alcd_max_y, __alcd_Line1_Start,
      __alcd_Line2_Start, hcol, hrow, if_neg hno]
    by_cases hz : row = 0
    · subst hz
      have hm : (128 + col) % 256 = 128 + col := Nat.mod_eq_of_lt (by omega)
      simp [hm]
    · have hm : (192 + col) % 256 = 192 + col := Nat.mod_eq_of_lt (by omega)
      simp [hz, hm]
  · intro h
    have hyes : col ≥ 16 ∨ row ≥ 2 := by omega
    simp only [alcd_gotoxy, __alcd_max_x, __alcd_max_y, __alcd_Line1_Start,
      __alcd_Line2_Start, hcol, hrow, if_pos hyes]
    simp

/-- Witness for `alcd_gotoxy_spec` at `(3, 1)` and `(20, 0)`. -/
theorem alcd_gotoxy_spec_w :
    (alcd_gotoxy initialState 3 1).1 = ⟨false, 3, 1⟩ ∧
    (alcd_gotoxy initialState 3 1).2 = [TxEv.tx 0xC3 __alcd_writeCmd] ∧
    (alcd_gotoxy ⟨true, 4, 1⟩ 20 0).1 = ⟨true, 0, 0⟩ ∧
    (alcd_gotoxy ⟨true, 4, 1⟩ 20 0).2 = [TxEv.tx 0x80 __alcd_writeCmd] := by
  have h1 := (alcd_gotoxy_spec initialState 3 1 (by decide) (by decide)).1 (by decide)
  have h2 := (alcd_gotoxy_spec ⟨true, 4, 1⟩ 20 0 (by decide) (by decide)).2 (by decide)
  refine ⟨?_, ?_, ?_, ?_⟩
  · simpa [initialState] using h1.1
  · simpa using h1.2
  · simpa using h2.1
  · simpa using h2.2

/-- C4: from any state, `alcd_clear` transmits the clear command `0x01`,
resets the stored position to `(0, 0)`, and performs the 5000 µs mode-set
delay after the transmission. -/
theorem alcd_clear_spec (s : State) :
    (alcd_clear s).1 = { s with __alcd_x_position := 0, __alcd_y_position := 0 } ∧
    (alcd_clear s).2 = [TxEv.tx 0x01 __alcd_writeCmd, TxEv.pause 5000] :=
  ⟨rfl, rfl⟩

/-- C5: `alcd_init` waits the 50000 µs power-on delay before any transfer,
then sends as commands, in order, `0x33`, `0x32`, `0x28`, `0x0C`, `0x0C`,
`0x06`, `0x01`, each followed by the 5000 µs mode-set delay, and ends with
`__alcd_initStatus = true` (it starts by forcing the flag to `false`, so all
these transfers run with pre-init timing). -/
theorem alcd_init_spec (s : State) :
    (alcd_init s).1 = { s with __alcd_initStatus := true } ∧
    (alcd_init s).2 =
      [ TxEv.pause 50000,
        TxEv.tx 0x33 __alcd_writeCmd, TxEv.pause 5000,
        TxEv.tx 0x32 __alcd_writeCmd, TxEv.pause 5000,
        TxEv.tx 0x28 __alcd_writeCmd, TxEv.pause 5000,
        TxEv.tx 0x0C __alcd_writeCmd, TxEv.pause 5000,
        TxEv.tx 0x0C __alcd_writeCmd, TxEv.pause 5000,
        TxEv.tx 0x06 __alcd_writeCmd, TxEv.pause 5000,
        TxEv.tx 0x01 __alcd_writeCmd, TxEv.pause 5000 ] :=
  ⟨rfl, rfl⟩

/-- C10: `alcd_init` never writes the position variables — it transmits the
clear command `0x01` but leaves `(__alcd_x_position, __alcd_y_position)`
unchanged, so after re-initialisation from state `(true, 5, 1)` the stored
position is still `(5, 1)`; `alcd_clear`, by contrast, resets both fields
to zero. -/
theorem alcd_init_frame (s : State) :
    (alcd_init s).1.__alcd_x_position = s.__alcd_x_position ∧
    (alcd_init s).1.__alcd_y_position = s.__alcd_y_position ∧
    TxEv.tx 0x01 __alcd_writeCmd ∈ (alcd_init s).2 ∧
    (alcd_init ⟨true, 5, 1⟩).1 = ⟨true, 5, 1⟩ ∧
    (∀ t : State, (alcd_clear t).1.__alcd_x_position = 0 ∧
      (alcd_clear t).1.__alcd_y_position = 0) := by
  refine ⟨rfl, rfl, ?_, rfl, fun t => ⟨rfl, rfl⟩⟩
  simp only [alcd_init, List.mem_cons]
  decide

end ALCD

namespace ALCD

/-- In-range `alcd_gotoxy` in closed form (shared helper). -/
lemma gotoxy_inrange_eq (s : State) (x y : Nat) (hx : x < 16) (hy : y < 2) :
    alcd_gotoxy s x y =
      ({ s with __alcd_x_position := x, __alcd_y_position := y },
       [TxEv.tx ((if y = 0 then 0x80 else 0xC0) + x) __alcd_writeCmd]) := by
  have hxm : x % 256 = x := Nat.mod_eq_of_lt (by omega)
  have hym : y % 256 = y := Nat.mod_eq_of_lt (by omega)
  have hno : ¬(x ≥ 16 ∨ y ≥ 2) := by omega
  simp only [alcd_gotoxy, __alcd_max_x, __alcd_max_y, __alcd_Line1_Start,
    __alcd_Line2_Start, hxm, hym, if_neg hno]
  by_cases hz : y = 0
  · subst hz
    simp [Nat.mod_eq_of_lt (show 128 + x < 256 by omega)]
  · simp [hz, Nat.mod_eq_of_lt (show 192 + x < 256 by omega)]

/-- C3: from any in-bounds state, `alcd_putc` transmits the character as
data and advances the column; on reaching column 16 it resets the column to
0, increments the row, and calls `alcd_gotoxy` with the new position.
Consequently 16 characters from `(0,0)` leave the cursor at `(0,1)`, a 17th
continues on row 1, and a character written at `(15,1)` leaves the cursor at
`(0,0)` through the clamp in `alcd_gotoxy` rather than wrapping to row 0. -/
theorem alcd_putc_spec (s : State) (c : Nat)
    (hx : s.__alcd_x_position < 16) (hy : s.__alcd_y_position < 2) :
    ((s.__alcd_x_position + 1 < 16 →
        (alcd_putc s c).1 = { s with __alcd_x_position := s.__alcd_x_position + 1 } ∧
        (alcd_putc s c).2 = [TxEv.tx (c % 256) __alcd_writeData]) ∧
     (s.__alcd_x_position = 15 →
        (alcd_putc s c).1 =
          (alcd_gotoxy
            { s with __alcd_x_position := 0,
                     __alcd_y_position := s.__alcd_y_position + 1 }
            0 (s.__alcd_y_position + 1)).1 ∧
        (alcd_putc s c).2 =
          TxEv.tx (c % 256) __alcd_writeData ::
            (alcd_gotoxy
              { s with __alcd_x_position := 0,
                       __alcd_y_position := s.__alcd_y_position + 1 }
              0 (s.__alcd_y_position + 1)).2)) ∧
    (alcd_puts initialState (List.replicate 16 65)).1.__alcd_x_position = 0 ∧
    (alcd_puts initialState (List.replicate 16 65)).1.__alcd_y_position = 1 ∧
    (alcd_puts initialState (List.replicate 17 65)).1.__alcd_x_position = 1 ∧
    (alcd_puts initialState (List.replicate 17 65)).1.__alcd_y_position = 1 ∧
    (alcd_putc ⟨true, 15, 1⟩ 65).1 = ⟨true, 0, 0⟩ := by
  refine ⟨⟨?_, ?_⟩, by decide, by decide, by decide, by decide, by decide⟩
  · intro h
    have hlt : (s.__alcd_x_position + 1) % 256 = s.__alcd_x_position + 1 :=
      Nat.mod_eq_of_lt (by omega)
    have hno : ¬(s.__alcd_x_position + 1 ≥ 16) := by omega
    simp only [alcd_putc, __alcd_max_x, hlt, if_neg hno]
    simp
  · intro h15
    have hyes : (s.__alcd_x_position + 1) % 256 ≥ __alcd_max_x := by
      simp only [h15, __alcd_max_x]
      omega
    have hym : (s.__alcd_y_position + 1) % 256 = s.__alcd_y_position + 1 :=
      Nat.mod_eq_of_lt (by omega)
    simp only [alcd_putc, if_pos hyes, hym]
    simp

/-- Witness for `alcd_putc_spec`: a mid-line write at `(3, 0)` and a
line-wrap write at `(15, 0)`. -/
theorem alcd_putc_spec_w :
    (alcd_putc ⟨true, 3, 0⟩ 66).1 = ⟨true, 4, 0⟩ ∧
    (alcd_putc ⟨true, 3, 0⟩ 66).2 = [TxEv.tx 66 __alcd_writeData] ∧
    (alcd_putc ⟨true, 15, 0⟩ 66).1 = ⟨true, 0, 1⟩ ∧
    (alcd_putc ⟨true, 15, 0⟩ 66).2 =
      [TxEv.tx 66 __alcd_writeData, TxEv.tx 0xC0 __alcd_writeCmd] := by
  have h1 := (alcd_putc_spec ⟨true, 3, 0⟩ 66 (by decide) (by decide)).1.1 (by decide)
  have h2 := (alcd_putc_spec ⟨true, 15, 0⟩ 66 (by decide) (by decide)).1.2 (by decide)
  refine ⟨?_, ?_, ?_, ?_⟩
  · simpa using h1.1
  · simpa using h1.2
  · rw [h2.1]; decide
  · rw [h2.2]; decide

end ALCD

namespace ALCD

/-- C6: within every transport call `alcd_write(data, mode)` — i.e. for
every byte ever transmitted, command and data alike — each enable pulse
(EN driven high) is immediately followed by the 5000 µs mode-set delay while
`__alcd_initStatus = false`, and by the 50 µs command delay once
`__alcd_initStatus = true`. -/
theorem alcd_write_delay_policy (st : Bool) (b : Nat) (m : Bool) (i : Nat)
    (h : (alcd_write st b m).get? i = some (Ev.setPin Pin.EN true)) :
    (alcd_write st b m).get? (i + 1) =
      some (Ev.delay (if st = false then 5000 else 50)) := by
  have hlen : i < (alcd_write st b m).length := by
    rcases List.get?_eq_some.mp h with ⟨hl, _⟩
    exact hl
  have h15 : i < 15 := by
    simpa [alcd_write] using hlen
  interval_cases i <;>
    simp [alcd_write, __alcd_delay_modeSet, __alcd_delay_CMD] at h ⊢

/-- Witness for `alcd_write_delay_policy`: the first enable pulse of a
pre-init data transfer of byte `0xA5` sits at index 5 and is followed by the
5000 µs delay. -/
theorem alcd_write_delay_policy_w :
    (alcd_write false 0xA5 true).get? 6 =
      some (Ev.delay (if false = false then 5000 else 50)) :=
  alcd_write_delay_policy false 0xA5 true 5 (by decide)

/-- C7: every transport call produces exactly two enable pulses — EN driven
high then low twice — the first latching bits 7–4 of the byte on DB4–DB7 and
the second bits 3–0, high nibble first, with the RS mode line set as the very
first GPIO write. -/
theorem alcd_write_two_pulses (st : Bool) (b : Nat) (m : Bool) :
    (alcd_write st b m).countP (fun e => decide (e = Ev.setPin Pin.EN true)) = 2 ∧
    (alcd_write st b m).countP (fun e => decide (e = Ev.setPin Pin.EN false)) = 2 ∧
    (alcd_write st b m).get? 0 = some (Ev.setPin Pin.RS m) ∧
    (alcd_write st b m).get? 1 = some (Ev.setPin Pin.DB4 ((b % 256).testBit 4)) ∧
    (alcd_write st b m).get? 2 = some (Ev.setPin Pin.DB5 ((b % 256).testBit 5)) ∧
    (alcd_write st b m).get? 3 = some (Ev.setPin Pin.DB6 ((b % 256).testBit 6)) ∧
    (alcd_write st b m).get? 4 = some (Ev.setPin Pin.DB7 ((b % 256).testBit 7)) ∧
    (alcd_write st b m).get? 5 = some (Ev.setPin Pin.EN true) ∧
    (alcd_write st b m).get? 7 = some (Ev.setPin Pin.EN false) ∧
    (alcd_write st b m).get? 8 = some (Ev.setPin Pin.DB4 ((b % 256).testBit 0)) ∧
    (alcd_write st b m).get? 9 = some (Ev.setPin Pin.DB5 ((b % 256).testBit 1)) ∧
    (alcd_write st b m).get? 10 = some (Ev.setPin Pin.DB6 ((b % 256).testBit 2)) ∧
    (alcd_write st b m).get? 11 = some (Ev.setPin Pin.DB7 ((b % 256).testBit 3)) ∧
    (alcd_write st b m).get? 12 = some (Ev.setPin Pin.EN true) ∧
    (alcd_write st b m).get? 14 = some (Ev.setPin Pin.EN false) :=
  ⟨rfl, rfl, rfl, rfl, rfl, rfl, rfl, rfl, rfl, rfl, rfl, rfl, rfl, rfl, rfl⟩

/-- C9: the display-mode command byte transmitted by `alcd_display` is the
unique value below 16 whose bit 3 is set (base `0x08`) and whose bits 0, 1,
2 equal `blinkOn`, `cursorOn`, `displayOn` respectively; in particular
`alcd_display(true, false, false)` transmits `0x0C` and
`alcd_display(true, true, true)` transmits `0x0F`.  The state is unchanged. -/
theorem alcd_display_spec (s : State) (dOn cOn bOn : Bool) :
    (∃ v, (alcd_display s dOn cOn bOn).2 = [TxEv.tx v __alcd_writeCmd] ∧
      v.testBit 0 = bOn ∧ v.testBit 1 = cOn ∧ v.testBit 2 = dOn ∧
      v.testBit 3 = true ∧ v < 16) ∧
    (alcd_display s dOn cOn bOn).1 = s ∧
    (alcd_display s true false false).2 = [TxEv.tx 0x0C __alcd_writeCmd] ∧
    (alcd_display s true true true).2 = [TxEv.tx 0x0F __alcd_writeCmd] := by
  refine ⟨?_, rfl, rfl, rfl⟩
  cases dOn <;> cases cOn <;> cases bOn
  · exact ⟨0x08, rfl, by decide, by decide, by decide, by decide, by decide⟩
  · exact ⟨0x09, rfl, by decide, by decide, by decide, by decide, by decide⟩
  · exact ⟨0x0A, rfl, by decide, by decide, by decide, by decide, by decide⟩
  · exact ⟨0x0B, rfl, by decide, by decide, by decide, by decide, by decide⟩
  · exact ⟨0x0C, rfl, by decide, by decide, by decide, by decide, by decide⟩
  · exact ⟨0x0D, rfl, by decide, by decide, by decide, by decide, by decide⟩
  · exact ⟨0x0E, rfl, by decide, by decide, by decide, by decide, by decide⟩
  · exact ⟨0x0F, rfl, by decide, by decide, by decide, by decide, by decide⟩

end ALCD

namespace ALCD

/-- C8 (counterexample): from the initial state, `alcd_customChar` at slot 3
with the all-zero 8-byte pattern makes 17 transport calls, not 16 — the
cursor-restoring `alcd_gotoxy` at the end transmits the DDRAM address as an
extra, 17th call on top of the 8 address + 8 data writes of the loop. -/
theorem alcd_customChar_count_cex :
    (alcd_customChar initialState 3 (List.replicate 8 0)).2.countP isTx = 17 ∧
    ¬((alcd_customChar initialState 3 (List.replicate 8 0)).2.countP isTx = 16) := by
  decide

/-- C8 (amended): for every slot below 8, every 8-byte pattern and every
in-bounds cursor position, `alcd_customChar` transmits exactly 17 transport
calls — for each `i < 8` the command byte `0x40 + slot*8 + i` followed by
`pattern[i]` as data, and finally the DDRAM address command issued by the
`alcd_gotoxy` call that restores the pre-call cursor position, which is left
unchanged in the driver state. -/
theorem alcd_customChar_spec (s : State) (slot : Nat) (pat : List Nat)
    (hs : slot < 8) (hl : pat.length = 8)
    (hx : s.__alcd_x_position < 16) (hy : s.__alcd_y_position < 2) :
    (alcd_customChar s slot pat).1 = s ∧
    (alcd_customChar s slot pat).2 =
      [ TxEv.tx (0x40 + slot * 8) __alcd_writeCmd,
        TxEv.tx (pat.getD 0 0 % 256) __alcd_writeData,
        TxEv.tx (0x40 + slot * 8 + 1) __alcd_writeCmd,
        TxEv.tx (pat.getD 1 0 % 256) __alcd_writeData,
        TxEv.tx (0x40 + slot * 8 + 2) __alcd_writeCmd,
        TxEv.tx (pat.getD 2 0 % 256) __alcd_writeData,
        TxEv.tx (0x40 + slot * 8 + 3) __alcd_writeCmd,
        TxEv.tx (pat.getD 3 0 % 256) __alcd_writeData,
        TxEv.tx (0x40 + slot * 8 + 4) __alcd_writeCmd,
        TxEv.tx (pat.getD 4 0 % 256) __alcd_writeData,
        TxEv.tx (0x40 + slot * 8 + 5) __alcd_writeCmd,
        TxEv.tx (pat.getD 5 0 % 256) __alcd_writeData,
        TxEv.tx (0x40 + slot * 8 + 6) __alcd_writeCmd,
        TxEv.tx (pat.getD 6 0 % 256) __alcd_writeData,
        TxEv.tx (0x40 + slot * 8 + 7) __alcd_writeCmd,
        TxEv.tx (pat.getD 7 0 % 256) __alcd_writeData,
        TxEv.tx ((if s.__alcd_y_position = 0 then 0x80 else 0xC0)
          + s.__alcd_x_position) __alcd_writeCmd ] ∧
    (alcd_customChar s slot pat).2.countP isTx = 17 := by
  obtain ⟨b0, b1, b2, b3, b4, b5, b6, b7, rfl⟩ :
      ∃ b0 b1 b2 b3 b4 b5 b6 b7, pat = [b0, b1, b2, b3, b4, b5, b6, b7] := by
    rcases pat with _ | ⟨b0, pat⟩
    · exact absurd hl (by simp)
    rcases pat with _ | ⟨b1, pat⟩
    · exact absurd hl (by simp)
    rcases pat with _ | ⟨b2, pat⟩
    · exact absurd hl (by simp)
    rcases pat with _ | ⟨b3, pat⟩
    · exact absurd hl (by simp)
    rcases pat with _ | ⟨b4, pat⟩
    · exact absurd hl (by simp)
    rcases pat with _ | ⟨b5, pat⟩
    · exact absurd hl (by simp)
    rcases pat with _ | ⟨b6, pat⟩
    · exact absurd hl (by simp)
    rcases pat with _ | ⟨b7, pat⟩
    · exact absurd hl (by simp)
    rcases pat with _ | ⟨b8, pat⟩
    · exact ⟨b0, b1, b2, b3, b4, b5, b6, b7, rfl⟩
    · exact absurd hl (by simp)
  have hre := gotoxy_inrange_eq s s.__alcd_x_position s.__alcd_y_position hx hy
  have hsm : slot % 256 = slot := Nat.mod_eq_of_lt (by omega)
  have h8 : slot <<< 3 = slot * 8 := by
    rw [Nat.shiftLeft_eq]
  have e0 : (64 + slot * 8) % 256 = 64 + slot * 8 := by omega
  have e1 : (64 + slot * 8 + 1) % 256 = 64 + slot * 8 + 1 := by omega
  have e2 : (64 + slot * 8 + 1 + 1) % 256 = 64 + slot * 8 + 2 := by omega
  have e3 : (64 + slot * 8 + 1 + 1 + 1) % 256 = 64 + slot * 8 + 3 := by omega
  have e4 : (64 + slot * 8 + 1 + 1 + 1 + 1) % 256 = 64 + slot * 8 + 4 := by omega
  have e5 : (64 + slot * 8 + 1 + 1 + 1 + 1 + 1) % 256 = 64 + slot * 8 + 5 := by omega
  have e6 : (64 + slot * 8 + 1 + 1 + 1 + 1 + 1 + 1) % 256 = 64 + slot * 8 + 6 := by omega
  have e7 : (64 + slot * 8 + 1 + 1 + 1 + 1 + 1 + 1 + 1) % 256 = 64 + slot * 8 + 7 := by omega
  have htr : (alcd_customChar s slot [b0, b1, b2, b3, b4, b5, b6, b7]).2 =
      [ TxEv.tx (0x40 + slot * 8) __alcd_writeCmd,
        TxEv.tx (b0 % 256) __alcd_writeData,
        TxEv.tx (0x40 + slot * 8 + 1) __alcd_writeCmd,
        TxEv.tx (b1 % 256) __alcd_writeData,
        TxEv.tx (0x40 + slot * 8 + 2) __alcd_writeCmd,
        TxEv.tx (b2 % 256) __alcd_writeData,
        TxEv.tx (0x40 + slot * 8 + 3) __alcd_writeCmd,
        TxEv.tx (b3 % 256) __alcd_writeData,
        TxEv.tx (0x40 + slot * 8 + 4) __alcd_writeCmd,
        TxEv.tx (b4 % 256) __alcd_writeData,
        TxEv.tx (0x40 + slot * 8 + 5) __alcd_writeCmd,
        TxEv.tx (b5 % 256) __alcd_writeData,
        TxEv.tx (0x40 + slot * 8 + 6) __alcd_writeCmd,
        TxEv.tx (b6 % 256) __alcd_writeData,
        TxEv.tx (0x40 + slot * 8 + 7) __alcd_writeCmd,
        TxEv.tx (b7 % 256) __alcd_writeData,
        TxEv.tx ((if s.__alcd_y_position = 0 then 0x80 else 0xC0)
          + s.__alcd_x_position) __alcd_writeCmd ] := by
    simp only [alcd_customChar, __alcd_CGRAM_Start, hsm, h8, hre,
      __alcd_CG_write_loop, List.headD_cons, List.tail_cons,
      e0, e1, e2, e3, e4, e5, e6, e7, List.cons_append, List.nil_append]
  refine ⟨?_, ?_, ?_⟩
  · show (alcd_gotoxy s s.__alcd_x_position s.__alcd_y_position).1 = s
    rw [hre]
  · rw [htr]
    simp [List.getD]
  · rw [htr]
    rfl

/-- Witness for `alcd_customChar_spec`: slot 3, pattern `[1,…,8]`, cursor at
`(4, 1)`. -/
theorem alcd_customChar_spec_w :
    (alcd_customChar ⟨true, 4, 1⟩ 3 [1, 2, 3, 4, 5, 6, 7, 8]).1 = ⟨true, 4, 1⟩ ∧
    (alcd_customChar ⟨true, 4, 1⟩ 3 [1, 2, 3, 4, 5, 6, 7, 8]).2.countP isTx = 17 := by
  have h := alcd_customChar_spec ⟨true, 4, 1⟩ 3 [1, 2, 3, 4, 5, 6, 7, 8]
    (by decide) (by decide) (by decide) (by decide)
  exact ⟨h.1, h.2.2⟩

end ALCD
